import Mathlib

/-!
Shallow embedding of the wrldrelief crisis-monitor pipeline
(`src/api-server/app`): the cache manager, the deduplication and scoring
routines, the magnitude-to-severity mapping and the data-quality module,
together with theorems checking the specification's claims about them.
Python strings are modelled as Lean `String`, machine floats that are only
compared against decimal thresholds as `Rat`, epoch timestamps as `Int`,
and fallible code as `Except`.
-/

/-- Python `str.lower()` restricted to per-character lowering, which is what
the source applies to ASCII keyword data. -/
def pyLower (s : String) : String :=
  String.mk (s.toList.map Char.toLower)

/-- Python `str.strip()`: drop leading and trailing whitespace. -/
def pyStrip (s : String) : String :=
  String.mk (((s.toList.dropWhile Char.isWhitespace).reverse.dropWhile
    Char.isWhitespace).reverse)

/-- Python `str.split()` with no argument: split on runs of whitespace,
dropping empty pieces. -/
def pySplitAux : List Char → List Char → List (List Char)
  | [], [] => []
  | [], cur => [cur.reverse]
  | c :: cs, cur =>
    if c.isWhitespace then
      match cur with
      | [] => pySplitAux cs []
      | _ => cur.reverse :: pySplitAux cs []
    else pySplitAux cs (c :: cur)

def pySplit (s : String) : List String :=
  (pySplitAux s.toList []).map String.mk

/-- Python substring test `needle in hay` on character lists. -/
def listInfix (needle hay : List Char) : Bool :=
  (List.range (hay.length + 1)).any
    (fun i => ((hay.drop i).take needle.length) == needle)

/-- Python `needle in hay` for strings. -/
def strContains (hay needle : String) : Bool :=
  listInfix needle.toList hay.toList

theorem strContains_self (s : String) : strContains s s = true := by
  simp only [strContains, listInfix, List.any_eq_true, List.mem_range]
  exact ⟨0, Nat.succ_pos _, by simp⟩

theorem strContains_empty (n : String) (h : n ≠ "") :
    strContains "" n = false := by
  have hn : n.toList ≠ [] := fun hc => h (by
    have := congrArg String.mk hc
    simpa using this)
  cases hl : n.toList with
  | nil => exact absurd hl hn
  | cons a l =>
      simp only [strContains, listInfix, hl]
      simp [String.toList]

/-- Coordinate pair, the `{"lat": .., "lng": ..}` dictionaries of the source. -/
structure Coords where
  lat : Rat
  lng : Rat
deriving DecidableEq

/-- The `DisasterInfo` dataclass of `ai_search.py`. -/
structure DisasterInfo where
  id : String
  title : String
  description : String
  location : String
  severity : String
  category : String
  timestamp : Int
  source : String
  confidence : Rat
  affected_people : Option Int := none
  damage_estimate : Option String := none
  coordinates : Option Coords := none
deriving DecidableEq

/-! ## cache_manager.py: SimpleDisasterCache -/

/-- The eviction cutoff `int((datetime.now() - timedelta(days=7)).timestamp())`
of `SimpleDisasterCache.update_cache`, with the current time given as epoch
seconds. -/
def retention_cutoff (now : Int) : Int := now - 7 * 86400

/-- `SimpleDisasterCache.update_cache`: the id set of the existing cache is
computed once; every new record whose id is absent from that set is appended
(so the loop body never sees ids added earlier in the same call); then every
record older than the 7-day cutoff is evicted.  Returns the added count and
the new cache contents. -/
def update_cache (cache : List DisasterInfo) (new_disasters : List DisasterInfo)
    (now : Int) : Nat × List DisasterInfo :=
  let existing_ids := cache.map (fun d => d.id)
  let added := new_disasters.filter (fun d => !(existing_ids.contains d.id))
  let merged := cache ++ added
  let kept := merged.filter (fun d => retention_cutoff now ≤ d.timestamp)
  (added.length, kept)

/-- Every record kept by `update_cache` survived the freshness filter. -/
theorem mem_update_cache_snd {cache L : List DisasterInfo} {now : Int}
    {d : DisasterInfo} (hd : d ∈ (update_cache cache L now).2) :
    d ∈ cache ++ L.filter (fun e => !((cache.map (fun c => c.id)).contains e.id))
      ∧ retention_cutoff now ≤ d.timestamp := by
  unfold update_cache at hd
  simp only [List.mem_filter, decide_eq_true_eq] at hd
  exact hd

/-- Claim C4: after every call to `update_cache`, every record remaining in
the cache satisfies `timestamp >= retention_cutoff now`; no older record
remains. -/
theorem update_cache_evicts_old (cache L : List DisasterInfo) (now : Int)
    (d : DisasterInfo) (hd : d ∈ (update_cache cache L now).2) :
    retention_cutoff now ≤ d.timestamp := by
  unfold update_cache at hd
  simp only [List.mem_filter, decide_eq_true_eq] at hd
  exact hd.2

/-- A sample record used by concrete witnesses and counterexamples. -/
def sampleRec (i t : String) (ts : Int) : DisasterInfo :=
  { id := i, title := t, description := "d", location := "l", severity := "LOW",
    category := "OTHER", timestamp := ts, source := "s", confidence := 1 }

/-- Witness for C4 at a concrete cache. -/
theorem update_cache_evicts_old_witness :
    sampleRec "a" "t" 650000 ∈ (update_cache [sampleRec "a" "t" 650000] [] 700000).2
      ∧ retention_cutoff 700000 ≤ (sampleRec "a" "t" 650000).timestamp :=
  ⟨by decide, update_cache_evicts_old [sampleRec "a" "t" 650000] [] 700000
    (sampleRec "a" "t" 650000) (by decide)⟩

/-- Claim C1 (amended): if every cached record and every record of `L` lies
inside the retention window, then re-running `update_cache` with the identical
list `L` returns `addedCount = 0` and leaves the cache unchanged. -/
theorem update_cache_reingest_noop (cache L : List DisasterInfo) (now : Int)
    (hc : ∀ d ∈ cache, retention_cutoff now ≤ d.timestamp)
    (hL : ∀ d ∈ L, retention_cutoff now ≤ d.timestamp) :
    (update_cache (update_cache cache L now).2 L now).1 = 0 ∧
      (update_cache (update_cache cache L now).2 L now).2
        = (update_cache cache L now).2 := by
  classical
  set ids := cache.map (fun d => d.id) with hids
  set added := L.filter (fun d => !(ids.contains d.id)) with haddeddef
  set merged := cache ++ added with hmergeddef
  have hfreshadded : ∀ d ∈ added, retention_cutoff now ≤ d.timestamp := by
    intro d hd
    exact hL d (List.mem_filter.mp hd).1
  have hfreshmerged : ∀ d ∈ merged, retention_cutoff now ≤ d.timestamp := by
    intro d hd
    rcases List.mem_append.mp hd with h | h
    · exact hc d h
    · exact hfreshadded d h
  have h1 : merged.filter (fun d => decide (retention_cutoff now ≤ d.timestamp))
      = merged :=
    List.filter_eq_self.mpr (fun a ha => decide_eq_true (hfreshmerged a ha))
  have hidmem : ∀ d ∈ L, d.id ∈ merged.map (fun c => c.id) := by
    intro d hd
    rw [hmergeddef, List.map_append, List.mem_append]
    by_cases hid : d.id ∈ ids
    · exact Or.inl hid
    · right
      have hdin : d ∈ added := by
        rw [haddeddef, List.mem_filter]
        refine ⟨hd, ?_⟩
        simp only [Bool.not_eq_true', ← Bool.not_eq_true]
        intro hcontr
        exact hid (by simpa using hcontr)
      exact List.mem_map.mpr ⟨d, hdin, rfl⟩
  have h2 : L.filter (fun d => !((merged.map (fun c => c.id)).contains d.id))
      = [] := by
    rw [List.filter_eq_nil_iff]
    intro a ha
    have := hidmem a ha
    simp [this]
  have hst1 : (update_cache cache L now).2 = merged := h1
  rw [hst1]
  constructor
  · show (L.filter
        (fun d => !((merged.map (fun c => c.id)).contains d.id))).length = 0
    rw [h2]
    rfl
  · show ((merged ++ L.filter
        (fun d => !((merged.map (fun c => c.id)).contains d.id))).filter
          (fun d => decide (retention_cutoff now ≤ d.timestamp))) = merged
    rw [h2, List.append_nil]
    exact h1

/-- Witness for C1 at a concrete cache, list and clock. -/
theorem update_cache_reingest_noop_witness :
    (update_cache (update_cache [sampleRec "c" "t" 680000]
        [sampleRec "n" "t2" 690000] 700000).2
        [sampleRec "n" "t2" 690000] 700000).1 = 0 ∧
      (update_cache (update_cache [sampleRec "c" "t" 680000]
          [sampleRec "n" "t2" 690000] 700000).2
          [sampleRec "n" "t2" 690000] 700000).2
        = (update_cache [sampleRec "c" "t" 680000]
            [sampleRec "n" "t2" 690000] 700000).2 :=
  update_cache_reingest_noop [sampleRec "c" "t" 680000]
    [sampleRec "n" "t2" 690000] 700000 (by decide) (by decide)

/-- Counterexample to C1 as stated: a record older than the retention cutoff
is added and immediately evicted, so the identical second call re-adds it and
returns `addedCount = 1`, not `0`. -/
theorem update_cache_reingest_stale_cex :
    (update_cache [] [sampleRec "old1" "t" 0] 1000000).1 = 1 ∧
      (update_cache (update_cache [] [sampleRec "old1" "t" 0] 1000000).2
        [sampleRec "old1" "t" 0] 1000000).1 = 1 := by
  decide

/-- Claim C6 (amended): `update_cache` preserves id-uniqueness of the cache
provided the incoming list itself carries pairwise-distinct ids; a record is
added only when its id is absent from the pre-call cache. -/
theorem update_cache_id_nodup (cache L : List DisasterInfo) (now : Int)
    (hc : (cache.map (fun d => d.id)).Nodup)
    (hL : (L.map (fun d => d.id)).Nodup) :
    (((update_cache cache L now).2).map (fun d => d.id)).Nodup := by
  classical
  set ids := cache.map (fun d => d.id) with hids
  set added := L.filter (fun d => !(ids.contains d.id)) with haddeddef
  have haddednodup : (added.map (fun d => d.id)).Nodup :=
    List.Nodup.sublist ((List.filter_sublist L).map (fun d => d.id)) hL
  have hkept : (update_cache cache L now).2.Sublist (cache ++ added) :=
    List.filter_sublist _
  have hmapsub : ((update_cache cache L now).2.map (fun d => d.id)).Sublist
      ((cache ++ added).map (fun d => d.id)) := hkept.map _
  have happ : ((cache ++ added).map (fun d => d.id)).Nodup := by
    rw [List.map_append, List.nodup_append]
    refine ⟨hc, haddednodup, ?_⟩
    intro x hx hx2
    rcases List.mem_map.mp hx2 with ⟨d, hd, rfl⟩
    have hnotin : d.id ∉ ids := by
      simpa using (List.mem_filter.mp hd).2
    exact hnotin (by simpa [hids] using hx)
  exact List.Nodup.sublist hmapsub happ

/-- Witness for C6 at a concrete cache and input list. -/
theorem update_cache_id_nodup_witness :
    (((update_cache [sampleRec "c" "t" 680000]
        [sampleRec "n" "t2" 690000] 700000).2).map (fun d => d.id)).Nodup :=
  update_cache_id_nodup [sampleRec "c" "t" 680000]
    [sampleRec "n" "t2" 690000] 700000 (by decide) (by decide)

/-- Counterexample to C6 as stated: the id set is computed once per call, so
an input list containing two fresh records with the same id puts both into
the cache. -/
theorem update_cache_id_dup_cex :
    ((update_cache [] [sampleRec "dup" "ta" 999000, sampleRec "dup" "tb" 999000]
        1000000).2.map (fun d => d.id)) = ["dup", "dup"] ∧
      ¬ ((update_cache []
          [sampleRec "dup" "ta" 999000, sampleRec "dup" "tb" 999000]
          1000000).2.map (fun d => d.id)).Nodup := by
  constructor
  · decide
  · decide

/-! ## ai_search.py: magnitude-to-severity mapping -/

/-- `DisasterSearchEngine._get_earthquake_severity` of ai_search.py. -/
def get_earthquake_severity (magnitude : Rat) : String :=
  if magnitude ≥ 7.0 then "CRITICAL"
  else if magnitude ≥ 6.0 then "HIGH"
  else if magnitude ≥ 5.0 then "MEDIUM"
  else "LOW"

/-- Claim C5: the magnitude-to-severity map is a pure function with
inclusive upper-tier boundaries: CRITICAL iff `magnitude >= 7`, HIGH iff
`6 <= magnitude < 7`, MEDIUM iff `5 <= magnitude < 6`, LOW otherwise; the
sample points 7.5, 6.2, 5.1, 3.9 and the exact boundaries 7, 6, 5 land in
the stated tiers. -/
theorem get_earthquake_severity_spec :
    (∀ m : Rat,
      ((get_earthquake_severity m = "CRITICAL") ↔ 7 ≤ m) ∧
      ((get_earthquake_severity m = "HIGH") ↔ 6 ≤ m ∧ m < 7) ∧
      ((get_earthquake_severity m = "MEDIUM") ↔ 5 ≤ m ∧ m < 6) ∧
      ((get_earthquake_severity m = "LOW") ↔ m < 5)) ∧
    get_earthquake_severity 7.5 = "CRITICAL" ∧
    get_earthquake_severity 6.2 = "HIGH" ∧
    get_earthquake_severity 5.1 = "MEDIUM" ∧
    get_earthquake_severity 3.9 = "LOW" ∧
    get_earthquake_severity 7 = "CRITICAL" ∧
    get_earthquake_severity 6 = "HIGH" ∧
    get_earthquake_severity 5 = "MEDIUM" := by
  refine ⟨fun m => ?_, by norm_num [get_earthquake_severity],
    by norm_num [get_earthquake_severity], by norm_num [get_earthquake_severity],
    by norm_num [get_earthquake_severity], by norm_num [get_earthquake_severity],
    by norm_num [get_earthquake_severity], by norm_num [get_earthquake_severity]⟩
  unfold get_earthquake_severity
  split_ifs with h1 h2 h3 <;>
    first
      | norm_num at h1 h2 h3
      | norm_num at h1 h2
      | norm_num at h1
  all_goals
    refine ⟨?_, ?_, ?_, ?_⟩ <;> simp <;>
      first
        | linarith
        | (intro _; linarith)
        | (constructor <;> linarith)

/-! ## ai_search.py: title-based deduplication -/

/-- A character kept by `re.sub(r'[^\w\s]', '', ...)`: a word character
(alphanumeric or underscore, ASCII here) or whitespace survives. -/
def pyWordChar (c : Char) : Bool := c.isAlphanum || c == '_'

/-- The normalised comparison key of
`DisasterSearchEngine._deduplicate_disasters`: lowercase the title, delete
every character that is neither a word character nor whitespace, strip, and
collapse internal whitespace to single spaces. -/
def normalizeTitleKey (title : String) : String :=
  let lowered := pyLower title
  let cleaned := String.mk (lowered.toList.filter
    (fun c => pyWordChar c || c.isWhitespace))
  String.intercalate " " (pySplit (pyStrip cleaned))

/-- Loop of `DisasterSearchEngine._deduplicate_disasters`: keep a record when
its key is unseen and longer than 5 characters, recording the key. -/
def deduplicateGo (seen : List String) :
    List DisasterInfo → List DisasterInfo
  | [] => []
  | d :: rest =>
    let key := normalizeTitleKey d.title
    if !(seen.contains key) && 5 < key.length then
      d :: deduplicateGo (key :: seen) rest
    else
      deduplicateGo seen rest

/-- `DisasterSearchEngine._deduplicate_disasters` of ai_search.py. -/
def deduplicate_disasters (disasters : List DisasterInfo) :
    List DisasterInfo :=
  deduplicateGo [] disasters

theorem deduplicateGo_filter_of_seen (k : String) :
    ∀ (ds : List DisasterInfo) (seen : List String), k ∈ seen →
      (deduplicateGo seen ds).filter
        (fun d => normalizeTitleKey d.title == k) = []
  | [], _, _ => rfl
  | d :: rest, seen, hk => by
    unfold deduplicateGo
    by_cases hc : (!(seen.contains (normalizeTitleKey d.title))
        && 5 < (normalizeTitleKey d.title).length) = true
    · rw [if_pos hc]
      have hkey : ¬ (normalizeTitleKey d.title == k) = true := by
        intro heq
        have : normalizeTitleKey d.title = k := by simpa using heq
        have hnot : ¬ normalizeTitleKey d.title ∈ seen := by
          have := (Bool.and_eq_true _ _).mp hc |>.1
          simpa using this
        exact hnot (this ▸ hk)
      rw [List.filter_cons_of_neg (by simpa using hkey)]
      exact deduplicateGo_filter_of_seen k rest _ (List.mem_cons_of_mem _ hk)
    · rw [if_neg hc]
      exact deduplicateGo_filter_of_seen k rest seen hk

theorem deduplicateGo_filter_of_unseen (k : String) (hlen : 5 < k.length) :
    ∀ (ds : List DisasterInfo) (seen : List String), k ∉ seen →
      (deduplicateGo seen ds).filter
          (fun d => normalizeTitleKey d.title == k)
        = (ds.find? (fun d => normalizeTitleKey d.title == k)).toList
  | [], _, _ => rfl
  | d :: rest, seen, hk => by
    unfold deduplicateGo
    by_cases hkey : normalizeTitleKey d.title = k
    · have hc : (!(seen.contains (normalizeTitleKey d.title))
          && 5 < (normalizeTitleKey d.title).length) = true := by
        rw [hkey]
        simp [hk, hlen]
      rw [if_pos hc]
      rw [List.filter_cons_of_pos (by simpa using hkey)]
      rw [deduplicateGo_filter_of_seen k rest _ (by
        rw [hkey]; exact List.mem_cons_self _ _)]
      rw [List.find?_cons_of_pos _ (by simpa using hkey)]
      rfl
    · by_cases hc : (!(seen.contains (normalizeTitleKey d.title))
          && 5 < (normalizeTitleKey d.title).length) = true
      · rw [if_pos hc]
        rw [List.filter_cons_of_neg (by simpa using hkey)]
        rw [List.find?_cons_of_neg _ (by simpa using hkey)]
        exact deduplicateGo_filter_of_unseen k hlen rest _ (by
          intro hmem
          rcases List.mem_cons.mp hmem with h | h
          · exact hkey h.symm
          · exact hk h)
      · rw [if_neg hc]
        rw [List.find?_cons_of_neg _ (by simpa using hkey)]
        exact deduplicateGo_filter_of_unseen k hlen rest seen hk

/-- Claim C2 (amended): for any normalised title key longer than 5
characters, the records of the input sharing that key collapse to exactly
the first-encountered such record in the deduplication output (records whose
key is 5 characters or shorter are rejected outright). -/
theorem deduplicate_collapses_by_key (ds : List DisasterInfo) (k : String)
    (hlen : 5 < k.length) :
    (deduplicate_disasters ds).filter
        (fun d => normalizeTitleKey d.title == k)
      = (ds.find? (fun d => normalizeTitleKey d.title == k)).toList :=
  deduplicateGo_filter_of_unseen k hlen ds [] (by simp)

/-- Witness for C2: two spellings of the same title collapse to the first
record. -/
theorem deduplicate_collapses_by_key_witness :
    (deduplicate_disasters
        [sampleRec "a" "Earthquake Strikes!" 0,
         sampleRec "b" "earthquake   strikes" 0]).filter
        (fun d => normalizeTitleKey d.title == "earthquake strikes")
      = ([sampleRec "a" "Earthquake Strikes!" 0,
          sampleRec "b" "earthquake   strikes" 0].find?
          (fun d => normalizeTitleKey d.title == "earthquake strikes")).toList :=
  deduplicate_collapses_by_key
    [sampleRec "a" "Earthquake Strikes!" 0,
     sampleRec "b" "earthquake   strikes" 0]
    "earthquake strikes" (by decide)

/-- Counterexample to C2 as stated: two records whose titles normalise to the
same short key ("fire", 4 characters) do not collapse to a single surviving
record; both are dropped and the output is empty. -/
theorem deduplicate_short_key_cex :
    normalizeTitleKey (sampleRec "a" "Fire!" 0).title
        = normalizeTitleKey (sampleRec "b" "fire" 0).title ∧
      deduplicate_disasters [sampleRec "a" "Fire!" 0, sampleRec "b" "fire" 0]
        = [] := by
  constructor
  · decide
  · decide

/-! ## hybrid_search.py: search failure handling -/

/-- `HybridDisasterEngine._get_fallback_data` of hybrid_search.py: the fixed
single synthetic record returned when the hybrid pipeline fails. -/
def get_fallback_data (now : Int) : List DisasterInfo :=
  [{ id := "hybrid_fallback_001",
     title := "Hybrid System Monitoring Active",
     description := "Hybrid disaster monitoring system (API + AI) is active and searching for global events.",
     location := "Global",
     severity := "LOW",
     category := "SYSTEM",
     timestamp := now,
     source := "Hybrid-System",
     confidence := 1,
     affected_people := some 0,
     damage_estimate := some "N/A",
     coordinates := some ⟨0, 0⟩ }]

/-- The result merge of `asyncio.gather(..., return_exceptions=True)` inside
`HybridDisasterEngine.search_disasters`: list results are concatenated in
order and component exceptions contribute nothing. -/
def gather_merge (results : List (Except String (List DisasterInfo))) :
    List DisasterInfo :=
  results.foldl (fun acc r => match r with
    | Except.ok l => acc ++ l
    | Except.error _ => acc) []

/-- The try/except shell of `HybridDisasterEngine.search_disasters`: if the
try-body completes it returns its list; if any exception escapes the body,
the except-arm returns `_get_fallback_data()`. -/
def search_disasters_hybrid (body : Except String (List DisasterInfo))
    (now : Int) : List DisasterInfo :=
  match body with
  | Except.ok ds => ds
  | Except.error _ => get_fallback_data now

/-- Claim C7 (amended): an exception while processing a hybrid search never
propagates, but the caller receives the fixed one-record fallback data set,
not an empty result set; a failed inner component contributes an empty
partial result to the merge. -/
theorem search_disasters_exception_fallback (e : String) (now : Int) :
    search_disasters_hybrid (Except.error e) now = get_fallback_data now ∧
      (search_disasters_hybrid (Except.error e) now).length = 1 ∧
      search_disasters_hybrid (Except.error e) now ≠ [] ∧
      gather_merge [Except.error e] = [] := by
  refine ⟨rfl, rfl, ?_, rfl⟩
  simp [search_disasters_hybrid, get_fallback_data]

/-- Counterexample to C7 as stated: a failed search returns the non-empty
fallback list, not an empty result set. -/
theorem search_disasters_exception_cex :
    search_disasters_hybrid (Except.error "boom") 0 ≠ [] ∧
      (search_disasters_hybrid (Except.error "boom") 0).length = 1 := by
  constructor
  · simp [search_disasters_hybrid, get_fallback_data]
  · rfl

/-! ## cache_manager.py: snapshot save and load -/

/-- One record of the `disasters` array written by
`SimpleDisasterCache._save_to_file`: `asdict(disaster)` with a falsy
`coordinates` entry replaced by `{"lat": 0.0, "lng": 0.0}`, so the saved
form always carries a coordinate pair. -/
structure SavedDisaster where
  id : String
  title : String
  description : String
  location : String
  severity : String
  category : String
  timestamp : Int
  source : String
  confidence : Rat
  affected_people : Option Int
  damage_estimate : Option String
  coordinates : Coords
deriving DecidableEq

/-- Serialisation of one record in `SimpleDisasterCache._save_to_file`. -/
def save_record (d : DisasterInfo) : SavedDisaster :=
  { id := d.id, title := d.title, description := d.description,
    location := d.location, severity := d.severity, category := d.category,
    timestamp := d.timestamp, source := d.source, confidence := d.confidence,
    affected_people := d.affected_people,
    damage_estimate := d.damage_estimate,
    coordinates := d.coordinates.getD ⟨0, 0⟩ }

/-- `SimpleDisasterCache._save_to_file`: the `disasters` array of the
snapshot (the volatile `saved_at` / `total_count` metadata is not part of the
record set). -/
def save_to_file (cache : List DisasterInfo) : List SavedDisaster :=
  cache.map save_record

/-- Rebuilding one `DisasterInfo(**item)` in
`SimpleDisasterCache._load_from_file`: the saved coordinates dictionary is
present and non-empty, so it is kept as the record's coordinate field. -/
def load_record (s : SavedDisaster) : DisasterInfo :=
  { id := s.id, title := s.title, description := s.description,
    location := s.location, severity := s.severity, category := s.category,
    timestamp := s.timestamp, source := s.source, confidence := s.confidence,
    affected_people := s.affected_people,
    damage_estimate := s.damage_estimate,
    coordinates := some s.coordinates }

/-- `SimpleDisasterCache._load_from_file` applied to a saved snapshot. -/
def load_from_file (data : List SavedDisaster) : List DisasterInfo :=
  data.map load_record

/-- Claim C8 (amended): saving the snapshot and reloading it reproduces the
record set field-for-field provided every record carries a coordinate pair;
a record whose `coordinates` is `None` is reloaded with the normalised pair
`{"lat": 0.0, "lng": 0.0}` instead. -/
theorem cache_roundtrip (cache : List DisasterInfo)
    (h : ∀ d ∈ cache, d.coordinates ≠ none) :
    load_from_file (save_to_file cache) = cache := by
  induction cache with
  | nil => rfl
  | cons d rest ih =>
    simp only [List.forall_mem_cons] at h
    have hd : load_record (save_record d) = d := by
      obtain ⟨c, hc⟩ := Option.ne_none_iff_exists'.mp h.1
      cases d
      simp_all [load_record, save_record]
    calc load_from_file (save_to_file (d :: rest))
        = load_record (save_record d) :: load_from_file (save_to_file rest) :=
          rfl
      _ = d :: rest := by rw [hd, ih h.2]

/-- Witness for C8 on a concrete one-record cache with coordinates. -/
theorem cache_roundtrip_witness :
    load_from_file (save_to_file
        [{ sampleRec "a" "t" 5 with coordinates := some ⟨1.5, 2.5⟩ }])
      = [{ sampleRec "a" "t" 5 with coordinates := some ⟨1.5, 2.5⟩ }] :=
  cache_roundtrip
    [{ sampleRec "a" "t" 5 with coordinates := some ⟨1.5, 2.5⟩ }]
    (by decide)

/-- Counterexample to C8 as stated: a record saved with `coordinates = None`
is reloaded with `coordinates = {"lat": 0.0, "lng": 0.0}`, so the reloaded
record set is not field-for-field identical to the saved one. -/
theorem cache_roundtrip_cex :
    (sampleRec "a" "t" 5).coordinates = none ∧
      load_from_file (save_to_file [sampleRec "a" "t" 5])
        ≠ [sampleRec "a" "t" 5] ∧
      (load_from_file (save_to_file [sampleRec "a" "t" 5])).map
          (fun d => d.coordinates)
        = [some ⟨0, 0⟩] := by
  refine ⟨rfl, ?_, by decide⟩
  decide

/-! ## data_quality.py: DataQualityEnhancer -/

/-- Case-insensitive literal test at the start of the input: the effect of a
regex literal under `re.match` with `re.IGNORECASE`. -/
def startsWithCI (l : List Char) (w : String) : Bool :=
  (l.take w.toList.length).map Char.toLower == w.toList.map Char.toLower

/-- Alternation of literal words each followed by at least one whitespace
character: a source pattern of the shape `^(w1|w2|...)\s+`. -/
def matchWordThenSpace (l : List Char) (words : List String) : Bool :=
  words.any (fun w =>
    startsWithCI l w &&
      (match l.drop w.toList.length with
       | c :: _ => c.isWhitespace
       | [] => false))

/-- Alternation of literal word starts: a source pattern `^(w1|w2|...)`. -/
def matchWordStart (l : List Char) (words : List String) : Bool :=
  words.any (fun w => startsWithCI l w)

/-- `^[A-Z][a-z]+\s+(said|reported|announced|stated|declared|confirmed)`
under IGNORECASE: a letter, at least one further letter, whitespace, then a
reporting verb.  The character classes involved are pairwise disjoint, so
the greedy munch below is exactly the regex's backtracking semantics. -/
def matchNameVerb (l : List Char) : Bool :=
  match l with
  | [] => false
  | c :: rest =>
    c.isAlpha &&
      !(rest.takeWhile Char.isAlpha).isEmpty &&
      (let r1 := rest.dropWhile Char.isAlpha
       !(r1.takeWhile Char.isWhitespace).isEmpty &&
         matchWordStart (r1.dropWhile Char.isWhitespace)
           ["said", "reported", "announced", "stated", "declared", "confirmed"])

/-- `^\d+\s+(people|persons|civilians|residents|victims)`. -/
def matchNumberPeople (l : List Char) : Bool :=
  !(l.takeWhile Char.isDigit).isEmpty &&
    (let r1 := l.dropWhile Char.isDigit
     !(r1.takeWhile Char.isWhitespace).isEmpty &&
       matchWordStart (r1.dropWhile Char.isWhitespace)
         ["people", "persons", "civilians", "residents", "victims"])

/-- The `invalid_location_patterns` loop of
`DataQualityEnhancer.clean_location`: true when any of the nine anchored,
case-insensitive patterns matches at the start of the string. -/
def matches_invalid_location (location : String) : Bool :=
  let l := location.toList
  matchWordThenSpace l ["However", "Meanwhile", "According", "The", "A", "An",
      "This", "That", "It", "He", "She", "They"]
    || matchWordStart l ["January", "February", "March", "April", "May",
      "June", "July", "August", "September", "October", "November", "December"]
    || matchNameVerb l
    || matchWordStart l ["News", "Dawn", "BBC", "CNN", "Reuters", "AP", "AFP",
      "Bloomberg", "Guardian"]
    || matchWordStart l ["Monday", "Tuesday", "Wednesday", "Thursday",
      "Friday", "Saturday", "Sunday"]
    || matchWordStart l ["Today", "Yesterday", "Tomorrow", "Now", "Then",
      "Here", "There"]
    || matchWordThenSpace l ["Mr", "Mrs", "Ms", "Dr", "Prof", "President",
      "Minister", "Secretary"]
    || matchNumberPeople l
    || matchWordStart l ["Breaking", "Latest", "Update", "Report", "Analysis",
      "Opinion"]

/-- The literal lead strings removed by `clean_location` when the location
starts with them (case-sensitive `startswith`). -/
def lead_removals : List String :=
  ["According to", "However,", "Meanwhile,", "The", "A", "An",
   "Breaking:", "Update:", "Latest:", "Report:", "News:"]

/-- Python `str.startswith` on characters. -/
def pyStartsWith (s p : String) : Bool :=
  s.toList.take p.toList.length == p.toList

/-- Sequential removal loop of `clean_location`: each matching lead string
is cut off and the remainder stripped before the next one is tested. -/
def removeLeads (location : String) : String :=
  lead_removals.foldl
    (fun loc p =>
      if pyStartsWith loc p then
        pyStrip (String.mk (loc.toList.drop p.toList.length))
      else loc)
    location

/-- A character of the class `[a-zA-Z\s]`. -/
def locClassChar (c : Char) : Bool := c.isAlpha || c.isWhitespace

/-- `^[A-Z][a-zA-Z\s]+,\s*[A-Z][a-zA-Z\s]+$` (case-sensitive); the classes
around `,` and `\s*` are disjoint from their delimiters, so greedy munch is
exact. -/
def validCityCountry (l : List Char) : Bool :=
  match l with
  | [] => false
  | c :: rest =>
    c.isUpper &&
      !(rest.takeWhile locClassChar).isEmpty &&
      (match rest.dropWhile locClassChar with
       | ',' :: r2 =>
         (match r2.dropWhile Char.isWhitespace with
          | d :: r4 => d.isUpper && !r4.isEmpty && r4.all locClassChar
          | [] => false)
       | _ => false)

/-- `^[A-Z][a-zA-Z\s]+$` (case-sensitive). -/
def validSingleLocation (l : List Char) : Bool :=
  match l with
  | [] => false
  | c :: rest => c.isUpper && !rest.isEmpty && rest.all locClassChar

/-- `DataQualityEnhancer._is_valid_location_format`. -/
def is_valid_location_format (location : String) : Bool :=
  validCityCountry location.toList || validSingleLocation location.toList

/-- `DataQualityEnhancer.clean_location`: empty or whitespace-only input,
an invalid-pattern match on the stripped input, a post-cleanup length
outside 3..100, or an invalid geographic format all yield the sentinel
"Location TBD"; otherwise the cleaned location is returned. -/
def clean_location (location : String) : String :=
  if pyStrip location = "" then "Location TBD"
  else
    let stripped := pyStrip location
    if matches_invalid_location stripped then "Location TBD"
    else
      let cleaned := removeLeads stripped
      if cleaned.length < 3 || 100 < cleaned.length then "Location TBD"
      else if is_valid_location_format cleaned then cleaned
      else "Location TBD"

/-- The `location_coordinates` dictionary of `DataQualityEnhancer`, in
insertion order.  The source assigns the key "New York, USA" twice with the
same value; as a Python dict key it collapses to its first insertion. -/
def location_coordinates : List (String × Coords) :=
  [("New York, USA", ⟨40.7128, -74.0060⟩),
   ("London, UK", ⟨51.5074, -0.1278⟩),
   ("Tokyo, Japan", ⟨35.6762, 139.6503⟩),
   ("Seoul, South Korea", ⟨37.5665, 126.9780⟩),
   ("Beijing, China", ⟨39.9042, 116.4074⟩),
   ("Moscow, Russia", ⟨55.7558, 37.6176⟩),
   ("Kiev, Ukraine", ⟨50.4501, 30.5234⟩),
   ("Istanbul, Turkey", ⟨41.0082, 28.9784⟩),
   ("Tehran, Iran", ⟨35.6892, 51.3890⟩),
   ("Damascus, Syria", ⟨33.5138, 36.2765⟩),
   ("Baghdad, Iraq", ⟨33.3152, 44.3661⟩),
   ("Kabul, Afghanistan", ⟨34.5553, 69.2075⟩),
   ("Islamabad, Pakistan", ⟨33.6844, 73.0479⟩),
   ("New Delhi, India", ⟨28.6139, 77.2090⟩),
   ("Jakarta, Indonesia", ⟨-6.2088, 106.8456⟩),
   ("Manila, Philippines", ⟨14.5995, 120.9842⟩),
   ("Bangkok, Thailand", ⟨13.7563, 100.5018⟩),
   ("Yangon, Myanmar", ⟨16.8661, 96.1951⟩),
   ("Dhaka, Bangladesh", ⟨23.8103, 90.4125⟩),
   ("Kathmandu, Nepal", ⟨27.7172, 85.3240⟩),
   ("Colombo, Sri Lanka", ⟨6.9271, 79.8612⟩),
   ("Ukraine", ⟨50.4501, 30.5234⟩),
   ("Russia", ⟨55.7558, 37.6176⟩),
   ("Syria", ⟨33.5138, 36.2765⟩),
   ("Iraq", ⟨33.3152, 44.3661⟩),
   ("Afghanistan", ⟨34.5553, 69.2075⟩),
   ("Pakistan", ⟨33.6844, 73.0479⟩),
   ("India", ⟨28.6139, 77.2090⟩),
   ("China", ⟨39.9042, 116.4074⟩),
   ("Japan", ⟨35.6762, 139.6503⟩),
   ("Turkey", ⟨41.0082, 28.9784⟩),
   ("Iran", ⟨35.6892, 51.3890⟩),
   ("Israel", ⟨31.7683, 35.2137⟩),
   ("Palestine", ⟨31.9522, 35.2332⟩),
   ("Lebanon", ⟨33.8547, 35.8623⟩),
   ("Yemen", ⟨15.5527, 48.5164⟩),
   ("Sudan", ⟨15.5007, 32.5599⟩),
   ("Ethiopia", ⟨9.1450, 40.4897⟩),
   ("Myanmar", ⟨16.8661, 96.1951⟩),
   ("Bangladesh", ⟨23.8103, 90.4125⟩),
   ("Nepal", ⟨27.7172, 85.3240⟩),
   ("Sri Lanka", ⟨6.9271, 79.8612⟩),
   ("California, USA", ⟨36.7783, -119.4179⟩),
   ("Texas, USA", ⟨31.9686, -99.9018⟩),
   ("Florida, USA", ⟨27.7663, -82.6404⟩)]

/-- `DataQualityEnhancer.get_coordinates`: the sentinel "Location TBD" and
the empty string map to (0,0); otherwise a direct dictionary lookup, then a
partial match on the comma-separated parts of each key, and finally the
(0,0) default. -/
def get_coordinates (location : String) : Coords :=
  if location == "Location TBD" || location == "" then ⟨0, 0⟩
  else
    match location_coordinates.find? (fun kv => kv.1 == location) with
    | some kv => kv.2
    | none =>
      let location_lower := pyLower location
      match location_coordinates.find? (fun kv =>
          (kv.1.splitOn ", ").any
            (fun part => strContains location_lower (pyLower part))) with
      | some kv => kv.2
      | none => ⟨0, 0⟩

/-- Claim C9 (amended): every input whose stripped form matches one of the
invalid-location patterns is cleaned to the sentinel "Location TBD", and the
coordinates of that sentinel are (0,0). -/
theorem clean_location_invalid_to_tbd (s : String)
    (h : matches_invalid_location (pyStrip s) = true) :
    clean_location s = "Location TBD" ∧
      get_coordinates (clean_location s) = ⟨0, 0⟩ := by
  have hcl : clean_location s = "Location TBD" := by
    unfold clean_location
    by_cases he : pyStrip s = ""
    · rw [if_pos he]
    · rw [if_neg he]
      simp only [h, if_true]
  refine ⟨hcl, ?_⟩
  rw [hcl]
  rfl

set_option maxRecDepth 40000

/-- Witness for C9 on the spec's example input. -/
theorem clean_location_invalid_to_tbd_witness :
    matches_invalid_location (pyStrip "Breaking: markets rally") = true ∧
      clean_location "Breaking: markets rally" = "Location TBD" ∧
      get_coordinates (clean_location "Breaking: markets rally") = ⟨0, 0⟩ :=
  ⟨by decide,
   (clean_location_invalid_to_tbd "Breaking: markets rally" (by decide)).1,
   (clean_location_invalid_to_tbd "Breaking: markets rally" (by decide)).2⟩

/-- Counterexample to C9 as stated: the raw input "However " (with a
trailing space) matches the invalid pattern `^(However|...)\s+`, yet
`clean_location` strips the input before testing the patterns, the stripped
"However" matches none of them, and the survivor "However" is returned
instead of the sentinel. -/
theorem clean_location_raw_match_cex :
    matches_invalid_location "However " = true ∧
      clean_location "However " = "However" ∧
      clean_location "However " ≠ "Location TBD" := by
  refine ⟨by decide, by decide, by decide⟩

/-- The `exclude_patterns` list of `DataQualityEnhancer.__init__`. -/
def exclude_patterns : List String :=
  ["political crisis", "economic crisis", "trade dispute", "election results",
   "court decision", "business news", "stock market", "parliament", "senate",
   "minister", "president", "prime minister", "government", "policy",
   "budget", "tax", "law", "legal", "judicial", "constitutional",
   "sports", "entertainment", "celebrity", "movie", "music", "fashion",
   "technology", "software", "app", "website", "social media", "internet",
   "cryptocurrency", "bitcoin", "blockchain", "nft",
   "meeting", "conference", "summit", "visit", "tour", "ceremony",
   "anniversary", "celebration", "festival", "award", "prize", "competition",
   "interview", "statement", "announcement", "launch", "opening"]

/-- The `disaster_context_patterns` list of `DataQualityEnhancer.__init__`. -/
def disaster_context_patterns : List String :=
  ["earthquake magnitude", "earthquake strikes", "earthquake hits",
   "seismic activity",
   "wildfire burns", "wildfire spreads", "fire destroys", "forest fire",
   "flood waters", "flooding affects", "flood victims", "flash flood",
   "hurricane winds", "hurricane makes landfall", "storm surge",
   "tropical storm",
   "tornado touches down", "tornado destroys", "twister",
   "volcano erupts", "volcanic ash", "lava flows", "volcanic activity",
   "landslide buries", "mudslide hits", "rockslide",
   "drought affects", "water shortage", "severe drought",
   "blizzard hits", "snowstorm", "ice storm",
   "civilians killed", "civilian casualties", "bombing attack", "bomb blast",
   "airstrike hits", "missile strike", "explosion kills", "terrorist attack",
   "refugee crisis", "displaced persons", "humanitarian aid",
   "humanitarian crisis",
   "evacuation ordered", "emergency declared", "state of emergency",
   "casualties reported", "people killed", "people injured", "victims",
   "rescue operations", "search and rescue", "emergency response",
   "disaster zone", "affected area", "damage assessment",
   "building collapse", "bridge collapse", "dam failure", "power outage",
   "train derailment", "plane crash", "ship sinking", "oil spill",
   "chemical leak", "gas explosion", "industrial accident",
   "disease outbreak", "epidemic", "pandemic", "health emergency",
   "contamination", "poisoning", "radiation leak"]

/-- The `conflict_indicators` list inside
`DataQualityEnhancer.is_actual_disaster`. -/
def conflict_indicators : List String :=
  ["killed", "dead", "casualties", "injured", "wounded", "missing",
   "destroyed", "damaged", "collapsed", "evacuated", "displaced",
   "emergency", "crisis", "disaster", "catastrophe", "tragedy"]

/-- `DataQualityEnhancer.is_actual_disaster`: builds
`(title + " " + description).lower()` (a `TypeError` when the description is
`None`), rejects on any exclusion pattern, accepts on any disaster-context
pattern, else accepts when at least two conflict indicators occur. -/
def is_actual_disaster (title : String) (description : Option String) :
    Except String Bool :=
  match description with
  | none => Except.error "TypeError"
  | some desc =>
    let full_text := pyLower (title ++ " " ++ desc)
    if exclude_patterns.any (fun p => strContains full_text p) then
      Except.ok false
    else if disaster_context_patterns.any
        (fun p => strContains full_text p) then
      Except.ok true
    else if 2 ≤ (conflict_indicators.filter
        (fun p => strContains full_text p)).length then
      Except.ok true
    else
      Except.ok false

/-- The `QualityScore` dataclass of data_quality.py. -/
structure QualityScore where
  title_score : Rat
  location_score : Rat
  coordinates_score : Rat
  description_score : Rat
  overall_score : Rat
deriving DecidableEq

/-- `DataQualityEnhancer.calculate_quality_score`.  With a `None`
description the computation raises a `TypeError` (first inside
`is_actual_disaster` at the string concatenation; the second
description-length check `len(description) > 100` would also evaluate `len`
on `None` unconditionally, mirrored by the inner `none` arm). -/
def calculate_quality_score (title location : String)
    (description : Option String) (coordinates : Option Coords) :
    Except String QualityScore :=
  match is_actual_disaster title description with
  | Except.error e => Except.error e
  | Except.ok isDisaster =>
    let title_score : Rat :=
      (if title ≠ "" ∧ 10 < title.length then 1/2 else 0) +
        (if isDisaster then 1/2 else 0)
    let location_score : Rat :=
      (if location ≠ "" ∧ location ≠ "Location TBD" then 1/2 else 0) +
        (if is_valid_location_format location then 1/2 else 0)
    let coordinates_score : Rat :=
      match coordinates with
      | some c => if c.lat ≠ 0 ∧ c.lng ≠ 0 then 1 else 0
      | none => 0
    match description with
    | none => Except.error "TypeError"
    | some desc =>
      let description_score : Rat :=
        (if desc ≠ "" ∧ 20 < desc.length then 1/2 else 0) +
          (if 100 < desc.length then 1/2 else 0)
      Except.ok
        { title_score := title_score,
          location_score := location_score,
          coordinates_score := coordinates_score,
          description_score := description_score,
          overall_score := title_score * 0.30 + location_score * 0.25 +
            coordinates_score * 0.25 + description_score * 0.20 }

theorem is_actual_disaster_some_ok (title desc : String) :
    ∃ b, is_actual_disaster title (some desc) = Except.ok b := by
  unfold is_actual_disaster
  dsimp only
  split_ifs <;> exact ⟨_, rfl⟩

/-- Claim C10: the quality scorer is not total over optional descriptions:
with `description = None` it raises a `TypeError` for every title, location
and coordinates; with a string description it returns a score whose overall
value is `0.30*title + 0.25*location + 0.25*coordinates + 0.20*description`
and lies in [0, 1]. -/
theorem calculate_quality_score_spec :
    (∀ (title location : String) (coordinates : Option Coords),
      calculate_quality_score title location none coordinates
        = Except.error "TypeError") ∧
    (∀ (title location desc : String) (coordinates : Option Coords),
      ∃ q : QualityScore,
        calculate_quality_score title location (some desc) coordinates
          = Except.ok q ∧
        q.overall_score = q.title_score * 0.30 + q.location_score * 0.25 +
          q.coordinates_score * 0.25 + q.description_score * 0.20 ∧
        0 ≤ q.overall_score ∧ q.overall_score ≤ 1) := by
  constructor
  · intro title location coordinates
    rfl
  · intro title location desc coordinates
    obtain ⟨b, hb⟩ := is_actual_disaster_some_ok title desc
    unfold calculate_quality_score
    rw [hb]
    refine ⟨_, rfl, rfl, ?_, ?_⟩
    · have h1 : (0:Rat) ≤ (if title ≠ "" ∧ 10 < title.length
          then (1:Rat)/2 else 0) + (if b then (1:Rat)/2 else 0) := by
        split_ifs <;> norm_num
      have h2 : (0:Rat) ≤ (if location ≠ "" ∧ location ≠ "Location TBD"
          then (1:Rat)/2 else 0) +
            (if is_valid_location_format location then (1:Rat)/2 else 0) := by
        split_ifs <;> norm_num
      have h3 : (0:Rat) ≤ (match coordinates with
          | some c => if c.lat ≠ 0 ∧ c.lng ≠ 0 then (1:Rat) else 0
          | none => 0) := by
        cases coordinates with
        | none => norm_num
        | some c => simp only; split_ifs <;> norm_num
      have h4 : (0:Rat) ≤ (if desc ≠ "" ∧ 20 < desc.length
          then (1:Rat)/2 else 0) + (if 100 < desc.length
            then (1:Rat)/2 else 0) := by
        split_ifs <;> norm_num
      simp only
      positivity
    · have h1 : (if title ≠ "" ∧ 10 < title.length
          then (1:Rat)/2 else 0) + (if b then (1:Rat)/2 else 0) ≤ 1 := by
        split_ifs <;> norm_num
      have h2 : (if location ≠ "" ∧ location ≠ "Location TBD"
          then (1:Rat)/2 else 0) +
            (if is_valid_location_format location then (1:Rat)/2 else 0)
          ≤ 1 := by
        split_ifs <;> norm_num
      have h3 : (match coordinates with
          | some c => if c.lat ≠ 0 ∧ c.lng ≠ 0 then (1:Rat) else 0
          | none => 0) ≤ 1 := by
        cases coordinates with
        | none => norm_num
        | some c => simp only; split_ifs <;> norm_num
      have h4 : (if desc ≠ "" ∧ 20 < desc.length
          then (1:Rat)/2 else 0) + (if 100 < desc.length
            then (1:Rat)/2 else 0) ≤ 1 := by
        split_ifs <;> norm_num
      have g1 : (0:Rat) ≤ (if title ≠ "" ∧ 10 < title.length
          then (1:Rat)/2 else 0) + (if b then (1:Rat)/2 else 0) := by
        split_ifs <;> norm_num
      have g2 : (0:Rat) ≤ (if location ≠ "" ∧ location ≠ "Location TBD"
          then (1:Rat)/2 else 0) +
            (if is_valid_location_format location then (1:Rat)/2 else 0) := by
        split_ifs <;> norm_num
      have g3 : (0:Rat) ≤ (match coordinates with
          | some c => if c.lat ≠ 0 ∧ c.lng ≠ 0 then (1:Rat) else 0
          | none => 0) := by
        cases coordinates with
        | none => norm_num
        | some c => simp only; split_ifs <;> norm_num
      have g4 : (0:Rat) ≤ (if desc ≠ "" ∧ 20 < desc.length
          then (1:Rat)/2 else 0) + (if 100 < desc.length
            then (1:Rat)/2 else 0) := by
        split_ifs <;> norm_num
      simp only
      nlinarith [h1, h2, h3, h4, g1, g2, g3, g4]

/-! ## main.py: search_disasters_by_query scoring -/

/-- The fields of the per-disaster dictionary that
`search_disasters_by_query` of main.py reads. -/
structure QueryDisaster where
  title : String
  description : String
  location : String
  category : String

/-- The Korean-to-English keyword mapping table of
`search_disasters_by_query`. -/
def korean_mappings : List (String × List String) :=
  [("지진", ["earthquake", "seismic"]),
   ("홍수", ["flood", "flooding"]),
   ("산불", ["fire", "wildfire"]),
   ("태풍", ["hurricane", "typhoon", "cyclone"]),
   ("화산", ["volcano", "volcanic"]),
   ("분쟁", ["war", "conflict", "attack"]),
   ("일본", ["japan", "japanese"]),
   ("중국", ["china", "chinese"]),
   ("미국", ["usa", "america", "united states"]),
   ("최근", ["recent", "latest"]),
   ("현재", ["current", "now"]),
   ("일어나는", ["happening", "occurring"])]

/-- The score one record receives in `search_disasters_by_query`: per-token
field matches (title +3, description +2, location +2, category +1), Korean
keyword bonuses (+5), special category bonuses (+5), region bonuses (+4)
and the recency bonus (+2). -/
def disaster_score (disaster : QueryDisaster) (query : String) : Nat :=
  let query_lower := pyLower query
  let title := pyLower disaster.title
  let description := pyLower disaster.description
  let location := pyLower disaster.location
  let category := pyLower disaster.category
  let query_words := pySplit query_lower
  let s1 := query_words.foldl (fun acc word =>
    let a1 := if strContains title word then acc + 3 else acc
    let a2 := if strContains description word then a1 + 2 else a1
    let a3 := if strContains location word then a2 + 2 else a2
    if strContains category word then a3 + 1 else a3) 0
  let s2 := korean_mappings.foldl (fun acc kv =>
    if strContains query_lower kv.1 then
      kv.2.foldl (fun acc2 eng =>
        if strContains title eng || strContains description eng
            || strContains location eng || strContains category eng then
          acc2 + 5
        else acc2) acc
    else acc) s1
  let s3 := if (query_words.any (fun word =>
        ["earthquake", "seismic"].contains word)) &&
      (disaster.category == "EARTHQUAKE") then s2 + 5 else s2
  let s4 := if (query_words.any (fun word =>
        ["flood", "flooding"].contains word)) &&
      (disaster.category == "FLOOD") then s3 + 5 else s3
  let s5 := if (query_words.any (fun word =>
        ["fire", "wildfire"].contains word)) &&
      (disaster.category == "WILDFIRE") then s4 + 5 else s4
  let s6 := if (query_words.any (fun word =>
        ["hurricane", "typhoon", "cyclone"].contains word)) &&
      (disaster.category == "HURRICANE") then s5 + 5 else s5
  let s7 := if (query_words.any (fun word =>
        ["volcano", "volcanic"].contains word)) &&
      (disaster.category == "VOLCANO") then s6 + 5 else s6
  let s8 := if (query_words.any (fun word =>
        ["war", "conflict", "attack"].contains word)) &&
      (disaster.category == "OTHER") &&
      (["attack", "killed", "war", "conflict"].any
        (fun word => strContains description word)) then s7 + 5 else s7
  let s9 := if (query_words.any (fun word =>
        ["japan", "japanese"].contains word)) &&
      strContains location "japan" then s8 + 4 else s8
  let s10 := if (query_words.any (fun word =>
        ["china", "chinese"].contains word)) &&
      strContains location "china" then s9 + 4 else s9
  let s11 := if (query_words.any (fun word =>
        ["usa", "america", "united states"].contains word)) &&
      (["united states", "usa", "america"].any
        (fun word => strContains location word)) then s10 + 4 else s10
  if query_words.any (fun word =>
      ["recent", "latest", "current", "now", "today"].contains word) then
    s11 + 2
  else s11

/-- Union of the token lists that trigger category, region or recency
bonuses in `search_disasters_by_query`. -/
def special_query_tokens : List String :=
  ["earthquake", "seismic", "flood", "flooding", "fire", "wildfire",
   "hurricane", "typhoon", "cyclone", "volcano", "volcanic", "war",
   "conflict", "attack", "japan", "japanese", "china", "chinese", "usa",
   "america", "united states", "recent", "latest", "current", "now", "today"]

/-- A plain single-token query: lowercasing it is non-empty and splits to
itself alone, it is in no special token list, and it contains no Korean
mapping key. -/
def plain_query_token (w : String) : Bool :=
  (pyLower w != "") &&
    (pySplit (pyLower w) == [pyLower w]) &&
    !(special_query_tokens.contains (pyLower w)) &&
    korean_mappings.all (fun kv => !(strContains (pyLower w) kv.1))

theorem pyLower_empty : pyLower "" = "" := rfl

theorem contains_false_of_sub {lw : String} {l1 l2 : List String}
    (hsub : ∀ x ∈ l1, x ∈ l2) (h : l2.contains lw = false) :
    l1.contains lw = false := by
  by_contra hc
  rw [Bool.not_eq_false] at hc
  have hmem : lw ∈ l1 := List.elem_iff.mp hc
  have : l2.contains lw = true := List.elem_iff.mpr (hsub lw hmem)
  rw [h] at this
  exact Bool.noConfusion this

/-- Claim C3 (amended): for a plain single-token query (one that triggers no
category, region, Korean-mapping or recency bonus), the per-token increments
score a title-only record 3, a location-only record 2, a description-only
record 2 and a category-only record 1: title strictly exceeds location,
location equals description, and both strictly exceed category. -/
theorem disaster_score_field_weights (w : String)
    (h : plain_query_token w = true) :
    disaster_score ⟨w, "", "", ""⟩ w = 3 ∧
      disaster_score ⟨"", "", w, ""⟩ w = 2 ∧
      disaster_score ⟨"", w, "", ""⟩ w = 2 ∧
      disaster_score ⟨"", "", "", w⟩ w = 1 := by
  unfold plain_query_token at h
  simp only [Bool.and_eq_true, bne_iff_ne, ne_eq, beq_iff_eq,
    Bool.not_eq_true', List.all_eq_true] at h
  obtain ⟨⟨⟨hne, hsplit⟩, hspec⟩, hkor⟩ := h
  have hself := strContains_self (pyLower w)
  have hemp := strContains_empty (pyLower w) hne
  have hnotmem : pyLower w ∉ special_query_tokens := by
    intro hm
    simp only [List.contains] at hspec
    rw [List.elem_iff.mpr hm] at hspec
    exact Bool.noConfusion hspec
  have hc1 : (["earthquake", "seismic"] : List String).contains (pyLower w)
      = false := contains_false_of_sub (by decide) hspec
  have hc2 : (["flood", "flooding"] : List String).contains (pyLower w)
      = false := contains_false_of_sub (by decide) hspec
  have hc3 : (["fire", "wildfire"] : List String).contains (pyLower w)
      = false := contains_false_of_sub (by decide) hspec
  have hc4 : (["hurricane", "typhoon", "cyclone"] : List String).contains
      (pyLower w) = false := contains_false_of_sub (by decide) hspec
  have hc5 : (["volcano", "volcanic"] : List String).contains (pyLower w)
      = false := contains_false_of_sub (by decide) hspec
  have hc6 : (["war", "conflict", "attack"] : List String).contains
      (pyLower w) = false := contains_false_of_sub (by decide) hspec
  have hc7 : (["japan", "japanese"] : List String).contains (pyLower w)
      = false := contains_false_of_sub (by decide) hspec
  have hc8 : (["china", "chinese"] : List String).contains (pyLower w)
      = false := contains_false_of_sub (by decide) hspec
  have hc9 : (["usa", "america", "united states"] : List String).contains
      (pyLower w) = false := contains_false_of_sub (by decide) hspec
  have hc10 : (["recent", "latest", "current", "now", "today"] :
      List String).contains (pyLower w) = false :=
    contains_false_of_sub (by decide) hspec
  have hk01 : strContains (pyLower w) "지진" = false :=
    hkor ("지진", ["earthquake", "seismic"]) (by decide)
  have hk02 : strContains (pyLower w) "홍수" = false :=
    hkor ("홍수", ["flood", "flooding"]) (by decide)
  have hk03 : strContains (pyLower w) "산불" = false :=
    hkor ("산불", ["fire", "wildfire"]) (by decide)
  have hk04 : strContains (pyLower w) "태풍" = false :=
    hkor ("태풍", ["hurricane", "typhoon", "cyclone"]) (by decide)
  have hk05 : strContains (pyLower w) "화산" = false :=
    hkor ("화산", ["volcano", "volcanic"]) (by decide)
  have hk06 : strContains (pyLower w) "분쟁" = false :=
    hkor ("분쟁", ["war", "conflict", "attack"]) (by decide)
  have hk07 : strContains (pyLower w) "일본" = false :=
    hkor ("일본", ["japan", "japanese"]) (by decide)
  have hk08 : strContains (pyLower w) "중국" = false :=
    hkor ("중국", ["china", "chinese"]) (by decide)
  have hk09 : strContains (pyLower w) "미국" = false :=
    hkor ("미국", ["usa", "america", "united states"]) (by decide)
  have hk10 : strContains (pyLower w) "최근" = false :=
    hkor ("최근", ["recent", "latest"]) (by decide)
  have hk11 : strContains (pyLower w) "현재" = false :=
    hkor ("현재", ["current", "now"]) (by decide)
  have hk12 : strContains (pyLower w) "일어나는" = false :=
    hkor ("일어나는", ["happening", "occurring"]) (by decide)
  have hnm := hnotmem
  simp only [special_query_tokens, List.mem_cons, List.not_mem_nil,
    or_false, not_or] at hnm
  obtain ⟨e01, e02, e03, e04, e05, e06, e07, e08, e09, e10, e11, e12, e13,
    e14, e15, e16, e17, e18, e19, e20, e21, e22, e23, e24, e25, e26⟩ := hnm
  have f01 : strContains "" "japan" = false := rfl
  have f02 : strContains "" "china" = false := rfl
  have f03 : strContains "" "united states" = false := rfl
  have f04 : strContains "" "usa" = false := rfl
  have f05 : strContains "" "america" = false := rfl
  have f06 : strContains "" "attack" = false := rfl
  have f07 : strContains "" "killed" = false := rfl
  have f08 : strContains "" "war" = false := rfl
  have f09 : strContains "" "conflict" = false := rfl
  refine ⟨?_, ?_, ?_, ?_⟩ <;>
    simp [disaster_score, hsplit, hself, hemp, hne, pyLower_empty,
      korean_mappings, hk01, hk02, hk03, hk04, hk05, hk06, hk07, hk08,
      hk09, hk10, hk11, hk12,
      hc1, hc2, hc3, hc4, hc5, hc6, hc7, hc8, hc9, hc10,
      e01, e02, e03, e04, e05, e06, e07, e08, e09, e10, e11, e12, e13,
      e14, e15, e16, e17, e18, e19, e20, e21, e22, e23, e24, e25, e26,
      f01, f02, f03, f04, f05, f06, f07, f08, f09]

/-- Witness for C3 at the concrete plain token "storm". -/
theorem disaster_score_field_weights_witness :
    plain_query_token "storm" = true ∧
      disaster_score ⟨"storm", "", "", ""⟩ "storm" = 3 ∧
      disaster_score ⟨"", "", "storm", ""⟩ "storm" = 2 ∧
      disaster_score ⟨"", "storm", "", ""⟩ "storm" = 2 ∧
      disaster_score ⟨"", "", "", "storm"⟩ "storm" = 1 :=
  ⟨by decide, disaster_score_field_weights "storm" (by decide)⟩

/-- Counterexample to C3 as stated: for the single-token query "storm", a
record containing the token only in its location scores 2, exactly the same
as an otherwise-identical record containing it only in its description, so
the location increment does not strictly exceed the description increment. -/
theorem disaster_score_loc_desc_tie_cex :
    disaster_score ⟨"", "", "storm", ""⟩ "storm"
        = disaster_score ⟨"", "storm", "", ""⟩ "storm" ∧
      ¬ (disaster_score ⟨"", "storm", "", ""⟩ "storm"
          < disaster_score ⟨"", "", "storm", ""⟩ "storm") := by
  constructor
  · decide
  · decide
